import Mathlib

/-!
Verification development for the reddit-monitor incremental monitoring
pipeline.  The Python source (src/reddit_monitor/) is shallowly embedded:
Python strings become `List Char`, Python dicts/JSON become the `JVal`
inductive, fallible code returns `Except Unit`, and the network is an
oracle parameter.  Python's `list(set(...))` — whose enumeration order is
unspecified — is modelled by an explicit `setOrder` parameter constrained
only by the set contract (`ValidEnum`).
-/

/-- Python strings are modelled as lists of characters. -/
abbrev Str := List Char

/-- Python `str.lower()` (character-wise lowercasing). -/
def pyLower (s : Str) : Str := s.map Char.toLower

/-- Python `needle in hay` on strings: contiguous-substring test. -/
def isSub (needle hay : Str) : Bool := decide (needle <:+: hay)

/-- Concatenate a list of lists (Python `extend` accumulation / `join`). -/
def joinAll : List (List α) → List α
  | [] => []
  | x :: xs => x ++ joinAll xs

/-- Python `" ".join(strings)`. -/
def joinSp : List Str → Str
  | [] => []
  | [s] => s
  | s :: rest => s ++ [' '] ++ joinSp rest

/-- A fetched post, as built by `api.extract_posts` and consumed by
`monitor.run_monitor` (only the fields the monitoring logic reads). -/
structure Post where
  id : Str
  title : Str
  selftext : Str
  subreddit : Str
  score : Int
  num_comments : Int
  deriving DecidableEq, Repr

/-- A fetched comment, as consumed by `classify_priority` and
`scan_comments_for_brands` (only the fields the logic reads). -/
structure Comment where
  author : Str
  body : Str
  score : Int
  id : Str
  deriving DecidableEq, Repr

/-- Priority tiers assigned by `classify_priority`. -/
inductive Priority where
  | URGENT
  | HIGH
  | MEDIUM
  deriving DecidableEq, Repr

/-- `(post["title"] + " " + post["selftext"])` — monitor.py lines 15 and 21. -/
def textOf (p : Post) : Str := p.title ++ [' '] ++ p.selftext

/-- monitor.py `is_relevant`: the post's lowercased subreddit is in the
high-value set, or the lowercased title+body contains a relevance keyword. -/
def is_relevant (p : Post) (high_value_subreddits : List Str)
    (relevance_keywords : List Str) : Bool :=
  let sub := pyLower p.subreddit
  if sub ∈ high_value_subreddits then true
  else
    let text := pyLower (textOf p)
    relevance_keywords.any (fun kw => isSub kw text)

/-- monitor.py `classify_priority`.  The `geographic_terms` argument is
accepted and unused, exactly as in the source.  `comments = None` maps to
`none`; Python's `if comments:` truthiness check means an empty list is
skipped like `None`. -/
def classify_priority (post : Post) (brand_aliases competitor_names : List Str)
    (geographic_terms : List Str) (comments : Option (List Comment)) : Priority :=
  let text := pyLower (textOf post)
  let commentHit : Bool :=
    match comments with
    | some cs => !cs.isEmpty &&
        brand_aliases.any (fun b => isSub b (joinSp (cs.map (fun c => pyLower c.body))))
    | none => false
  if brand_aliases.any (fun b => isSub b text) then .URGENT
  else if commentHit then .URGENT
  else if competitor_names.any (fun c => isSub c text) then .HIGH
  else .MEDIUM

example : isSub ['a','b'] ['x','a','b','y'] = true := by decide
example : isSub ['a','b'] ['a','x','b'] = false := by decide
example : pyLower ['A','b'] = ['a','b'] := by decide
example :
    classify_priority
      { id := [], title := ['x'], selftext := ['y'], subreddit := [],
        score := 0, num_comments := 0 }
      [['a',' ','b']] [] [] (some [{ author := [], body := ['a'], score := 0, id := [] },
                                   { author := [], body := ['b'], score := 0, id := [] }])
    = .URGENT := by decide

/-- state.py `trim_seen_ids`: when `len(ids) > max_ids`, keep the Python
slice `ids[-max_ids:]`.  For `max_ids > 0` that is the last `max_ids`
entries; for `max_ids = 0` the slice `ids[-0:]` is `ids[0:]`, i.e. the
whole list (a Python slicing quirk the embedding reproduces). -/
def trim_seen_ids (ids : List Str) (max_ids : Nat) : List Str :=
  if ids.length > max_ids then
    if max_ids = 0 then ids else ids.drop (ids.length - max_ids)
  else ids

/-- The contract of Python's `list(seen_ids)` where `seen_ids` is the set
built from the loaded ids `A` and the fetched ids `B`: the enumeration
`ord` lists each element of `A ∪ B` exactly once, in an order the Python
language does not specify.  Runs are therefore parametrised by `ord`. -/
def ValidEnum (ord A B : List Str) : Prop :=
  ord.Nodup ∧ (∀ x ∈ ord, x ∈ A ∨ x ∈ B) ∧
    (∀ x ∈ A, x ∈ ord) ∧ (∀ x ∈ B, x ∈ ord)

instance (ord A B : List Str) : Decidable (ValidEnum ord A B) := by
  unfold ValidEnum; infer_instance

/-- Priority rank used by the sort key: `{"URGENT": 0, "HIGH": 1, "MEDIUM": 2}`. -/
def priorityRank : Priority → Nat
  | .URGENT => 0
  | .HIGH => 1
  | .MEDIUM => 2

/-- Secondary sort key: `-(x["score"] + x["num_comments"])`, ascending. -/
def negEngagement (ap : Post × Priority) : Int :=
  -(ap.1.score + ap.1.num_comments)

/-- The sort key comparison of monitor.py line 131: lexicographic on
`(priority rank, -(score + num_comments))`, ascending. -/
def keyLe (a b : Post × Priority) : Bool :=
  decide (priorityRank a.2 < priorityRank b.2 ∨
    (priorityRank a.2 = priorityRank b.2 ∧ negEngagement a ≤ negEngagement b))

/-- Insert `x` after every element `y` with `keyLe`-smaller-or-equal key. -/
def insertKeyed (le : α → α → Bool) (x : α) : List α → List α
  | [] => [x]
  | y :: ys => if le y x then y :: insertKeyed le x ys else x :: y :: ys

/-- Stable ascending sort (insertion sort, inserting after equal keys).
Python's `list.sort` is a stable ascending sort; for a total preorder the
stable ascending permutation is unique, so this computes the same list. -/
def stableSort (le : α → α → Bool) (l : List α) : List α :=
  l.foldl (fun acc x => insertKeyed le x acc) []

example :
    stableSort keyLe
      [({ id := ['a'], title := [], selftext := [], subreddit := [], score := 1,
          num_comments := 0 }, Priority.MEDIUM),
       ({ id := ['b'], title := [], selftext := [], subreddit := [], score := 9,
          num_comments := 0 }, Priority.MEDIUM),
       ({ id := ['c'], title := [], selftext := [], subreddit := [], score := 0,
          num_comments := 0 }, Priority.URGENT)]
    = [({ id := ['c'], title := [], selftext := [], subreddit := [], score := 0,
          num_comments := 0 }, Priority.URGENT),
       ({ id := ['b'], title := [], selftext := [], subreddit := [], score := 9,
          num_comments := 0 }, Priority.MEDIUM),
       ({ id := ['a'], title := [], selftext := [], subreddit := [], score := 1,
          num_comments := 0 }, Priority.MEDIUM)] := by decide

/-- Helper for `dedupById`: keep the first occurrence of each id
(monitor.py lines 110-114 — an insertion-ordered dict keyed by id). -/
def dedupByIdAux : List Post → List Str → List Post
  | [], _ => []
  | p :: rest, seen =>
    if p.id ∈ seen then dedupByIdAux rest seen
    else p :: dedupByIdAux rest (p.id :: seen)

/-- Within-run dedup: collapse posts with equal ids, keeping the first. -/
def dedupById (ps : List Post) : List Post := dedupByIdAux ps []

/-- The configuration values `run_monitor` reads (monitor.py lines 62-74).
The lowercasing the orchestrator applies to the configured lists is part
of `runMonitor` itself, mirroring the source. -/
structure Settings where
  brand_aliases : List Str
  competitor_names : List Str
  high_value_subs : List Str
  relevance_keywords : List Str
  geographic : List Str
  max_comments_to_fetch : Nat
  min_comments_for_fetch : Int
  max_seen_ids : Nat
  deriving Repr

/-- All unique posts returned by the searches of one run, in order
(monitor.py: `all_posts` after dedup). -/
def allPostsOf (searchResults : List (List Post)) : List Post :=
  dedupById (joinAll searchResults)

/-- The ids the run adds to the seen set: the id of every fetched post,
relevant or not. -/
def fetchedIdsOf (searchResults : List (List Post)) : List Str :=
  (allPostsOf searchResults).map (fun p => p.id)

/-- New relevant posts: drop posts whose id is in the loaded seen set,
then drop irrelevant posts (monitor.py lines 118 and 122). -/
def newRelevantOf (cfg : Settings) (searchResults : List (List Post))
    (loadedSeen : List Str) : List Post :=
  ((allPostsOf searchResults).filter (fun p => decide (p.id ∉ loadedSeen))).filter
    (fun p => is_relevant p (cfg.high_value_subs.map pyLower)
      (cfg.relevance_keywords.map pyLower))

/-- Initial classification (no comment context) of the new relevant posts. -/
def classifiedOf (cfg : Settings) (searchResults : List (List Post))
    (loadedSeen : List Str) : List (Post × Priority) :=
  (newRelevantOf cfg searchResults loadedSeen).map
    (fun p => (p, classify_priority p (cfg.brand_aliases.map pyLower)
      (cfg.competitor_names.map pyLower) (cfg.geographic.map pyLower) none))

/-- The sorted new relevant posts (monitor.py lines 130-132). -/
def sortedOf (cfg : Settings) (searchResults : List (List Post))
    (loadedSeen : List Str) : List (Post × Priority) :=
  stableSort keyLe (classifiedOf cfg searchResults loadedSeen)

/-- `comment_worthy`: sorted posts whose `num_comments` strictly exceeds
`min_comments_for_fetch` (monitor.py line 137). -/
def commentWorthyOf (cfg : Settings) (searchResults : List (List Post))
    (loadedSeen : List Str) : List (Post × Priority) :=
  (sortedOf cfg searchResults loadedSeen).filter
    (fun ap => decide (ap.1.num_comments > cfg.min_comments_for_fetch))

/-- The posts whose comments are actually fetched:
`comment_worthy[:max_comments]` (monitor.py line 140). -/
def deepFetchedOf (cfg : Settings) (searchResults : List (List Post))
    (loadedSeen : List Str) : List (Post × Priority) :=
  (commentWorthyOf cfg searchResults loadedSeen).take cfg.max_comments_to_fetch

/-- The result of one run of `run_monitor`, restricted to the observables
the specification's claims are about. -/
structure RunResult where
  new_posts : List (Post × Priority)
  fetched : List Post
  persisted_seen : List Str
  trimmed : List Str
  new_post_count : Nat
  deriving Repr

/-- monitor.py `run_monitor` as a pure function.  Inputs: the per-query
search results (the network oracle), the loaded `seen_post_ids`, the
comment oracle (what `api.fetch_comments_for_post` returns per post id),
and `setOrder` — the enumeration Python's `list(seen_ids)` yields for the
updated seen set (constrained by `ValidEnum` in the theorems).  Report
writing and the summary file are I/O presentation, not modelled. -/
def runMonitor (cfg : Settings) (searchResults : List (List Post))
    (loadedSeen : List Str) (commentsFor : Str → List Comment)
    (setOrder : List Str) : RunResult :=
  let sorted := sortedOf cfg searchResults loadedSeen
  let deep := deepFetchedOf cfg searchResults loadedSeen
  let deepIds : List Str := deep.map (fun ap => ap.1.id)
  let finalPosts := sorted.map (fun ap =>
    if ap.1.id ∈ deepIds then
      (ap.1, classify_priority ap.1 (cfg.brand_aliases.map pyLower)
        (cfg.competitor_names.map pyLower) (cfg.geographic.map pyLower)
        (some (commentsFor ap.1.id)))
    else ap)
  let persisted := trim_seen_ids setOrder cfg.max_seen_ids
  { new_posts := finalPosts
    fetched := deep.map (fun ap => ap.1)
    persisted_seen := persisted
    trimmed := setOrder.take (setOrder.length - persisted.length)
    new_post_count := finalPosts.length }

/-- JSON-like Python values, as produced by `json.loads` in api.py.
Numbers are modelled as integers (the fields the pipeline reads are
integral); object fields are an association list with string keys. -/
inductive JVal where
  | null
  | bool (b : Bool)
  | num (n : Int)
  | str (s : Str)
  | arr (elems : List JVal)
  | obj (fields : List (Str × JVal))

/-- First-match lookup in a JSON object's field list (Python dict lookup;
objects parsed from JSON have unique keys). -/
def jLookup : List (Str × JVal) → Str → Option JVal
  | [], _ => none
  | (k', v) :: rest, k => if k' = k then some v else jLookup rest k

/-- Python truthiness of a JSON value (`not data` in api.py). -/
def jFalsy : JVal → Bool
  | .null => true
  | .bool b => !b
  | .num n => n == 0
  | .str s => s.isEmpty
  | .arr es => es.isEmpty
  | .obj fs => fs.isEmpty

/-- Python `d.get(k, default)` on a value already known to be a dict. -/
def dGet (ds : List (Str × JVal)) (k : Str) (dflt : JVal) : JVal :=
  (jLookup ds k).getD dflt

/-- Python `(v or "")[:n]` — used for `selftext` and comment bodies.
Falsy values become the empty string; strings and lists are sliced;
any other truthy value raises `TypeError` (not subscriptable). -/
def pyOrSlice (v : JVal) (n : Nat) : Except Unit JVal :=
  if jFalsy v then .ok (.str [])
  else match v with
    | .str s => .ok (.str (s.take n))
    | .arr es => .ok (.arr (es.take n))
    | _ => .error ()

def kKind : Str := ['k','i','n','d']
def kData : Str := ['d','a','t','a']
def kChildren : Str := ['c','h','i','l','d','r','e','n']
def kTitle : Str := ['t','i','t','l','e']
def kSubreddit : Str := ['s','u','b','r','e','d','d','i','t']
def kAuthor : Str := ['a','u','t','h','o','r']
def kScore : Str := ['s','c','o','r','e']
def kNumComments : Str := ['n','u','m','_','c','o','m','m','e','n','t','s']
def kCreatedUtc : Str := ['c','r','e','a','t','e','d','_','u','t','c']
def kSelftext : Str := ['s','e','l','f','t','e','x','t']
def kPermalink : Str := ['p','e','r','m','a','l','i','n','k']
def kId : Str := ['i','d']
def kBody : Str := ['b','o','d','y']
def kReplies : Str := ['r','e','p','l','i','e','s']
def strT1 : Str := ['t','1']
def strListing : Str := ['L','i','s','t','i','n','g']

/-- Python `str(v)` restricted to the shapes the pipeline's f-string can
meet; container reprs are abstracted to the empty string (no claim reads
the `url` field, which is the only consumer). -/
def pyStrOf : JVal → Str
  | .str s => s
  | .num n => (toString n).toList
  | .bool true => ['T','r','u','e']
  | .bool false => ['F','a','l','s','e']
  | .null => ['N','o','n','e']
  | .arr _ => []
  | .obj _ => []

/-- Python `k in d` (api.py line 28: `"data" not in data`): key membership
for dicts, element equality for lists, substring for strings, and a
`TypeError` for other values. -/
def jContains (d : JVal) (k : Str) : Except Unit Bool :=
  match d with
  | .obj fs => .ok (fs.any (fun p => decide (p.1 = k)))
  | .arr es => .ok (es.any (fun e => match e with | .str s => decide (s = k) | _ => false))
  | .str s => .ok (isSub k s)
  | _ => .error ()

/-- Python `d[k]` with a string key: dict lookup (`KeyError` if absent);
a `TypeError` for any non-dict value. -/
def jIndexStr (d : JVal) (k : Str) : Except Unit JVal :=
  match d with
  | .obj fs => match jLookup fs k with
    | some v => .ok v
    | none => .error ()
  | _ => .error ()

/-- Python `for x in v`: lists yield elements, strings yield one-character
strings, dicts yield their keys, everything else raises `TypeError`. -/
def pyIter : JVal → Except Unit (List JVal)
  | .arr es => .ok es
  | .str s => .ok (s.map (fun c => .str [c]))
  | .obj fs => .ok (fs.map (fun p => .str p.1))
  | _ => .error ()

/-- The post dict built by api.py `extract_posts` for one child (fields
kept as JSON values; the URL prefix of the f-string is abstracted). -/
structure RawPost where
  title : JVal
  subreddit : JVal
  author : JVal
  score : JVal
  num_comments : JVal
  created_utc : JVal
  selftext : JVal
  url : JVal
  permalink : JVal
  id : JVal

/-- Extraction of one `child` of the listing (api.py lines 31-44):
`child.get("data", {})` requires a dict (else `AttributeError`), the
result must again be a dict for the field `.get`s, and `selftext` goes
through `(… or "")[:1000]`. -/
def extractChild (child : JVal) : Except Unit RawPost :=
  match child with
  | .obj cfs =>
    match dGet cfs kData (.obj []) with
    | .obj ds =>
      (match pyOrSlice (dGet ds kSelftext (.str [])) 1000 with
       | .error e => .error e
       | .ok selftext =>
         .ok { title := dGet ds kTitle (.str [])
               subreddit := dGet ds kSubreddit (.str [])
               author := dGet ds kAuthor (.str [])
               score := dGet ds kScore (.num 0)
               num_comments := dGet ds kNumComments (.num 0)
               created_utc := dGet ds kCreatedUtc (.num 0)
               selftext := selftext
               url := .str (pyStrOf (dGet ds kPermalink (.str [])))
               permalink := dGet ds kPermalink (.str [])
               id := dGet ds kId (.str []) })
    | _ => .error ()
  | _ => .error ()

/-- api.py `extract_posts`: `None` or falsy data, or data without a
`"data"` member, yields `[]`; otherwise the children of `data["data"]`
are extracted in order.  Exceptions Python would raise on shape-malformed
(but valid-JSON) input are modelled as `Except.error`. -/
def extract_posts (data : Option JVal) : Except Unit (List RawPost) :=
  match data with
  | none => .ok []
  | some d =>
    if jFalsy d then .ok []
    else
      match jContains d kData with
      | .error e => .error e
      | .ok hasData =>
        if !hasData then .ok []
        else
          match jIndexStr d kData with
          | .error e => .error e
          | .ok (.obj dds) =>
            (match pyIter (dGet dds kChildren (.arr [])) with
             | .error e => .error e
             | .ok children => children.mapM extractChild)
          | .ok _ => .error ()

/-- The search fan-out of monitor.py lines 98-107: one outcome per
configured query.  `none` is what `api.fetch_reddit` hands back when the
request failed (timeout, non-2xx HTTP error, or a payload `json.loads`
rejects — all caught by its `try/except`); `some d` is the parsed JSON of
a completed request.  Results are concatenated in query order. -/
def searchLoop : List (Option JVal) → Except Unit (List RawPost)
  | [] => .ok []
  | o :: rest =>
    match extract_posts o with
    | .error e => .error e
    | .ok ps =>
      match searchLoop rest with
      | .error e => .error e
      | .ok more => .ok (ps ++ more)

/-- A comment dict built by the walk in `fetch_comments_for_post`
(fields kept as JSON values). -/
structure RawComment where
  author : JVal
  body : JVal
  score : JVal
  id : JVal

theorem jLookup_sizeOf {fs : List (Str × JVal)} {k : Str} {v : JVal}
    (h : jLookup fs k = some v) : sizeOf v < sizeOf (JVal.obj fs) := by
  induction fs with
  | nil => simp [jLookup] at h
  | cons p rest ih =>
    obtain ⟨k', v'⟩ := p
    rw [jLookup] at h
    by_cases hk : k' = k
    · simp [hk] at h
      subst h
      simp
      omega
    · simp [hk] at h
      have := ih h
      simp at this ⊢
      omega

theorem sizeOf_lt_arr {es : List JVal} : sizeOf es < sizeOf (JVal.arr es) := by
  simp

theorem sizeOf_mem_list {e : JVal} {es : List JVal} (h : e ∈ es) :
    sizeOf e < sizeOf es := by
  induction es with
  | nil => cases h
  | cons x rest ih =>
    rw [List.mem_cons] at h
    rcases h with rfl | h
    · simp
      omega
    · have := ih h
      simp
      omega

mutual

/-- The recursive `walk_comments` closure of api.py
`fetch_comments_for_post` (lines 56-73), with Python exceptions modelled
as `Except.error`.  A dict of kind `"t1"` contributes one comment (its
body passed through `(… or "")[:1000]`, which raises on truthy
non-sliceable values) and is recursed into only when its `"replies"`
field is a dict; a dict of kind `"Listing"` is recursed into; every
non-dict node, unknown kind, or absent field is a no-op.  A `"data"`
field that is present but not a dict makes the subsequent `.get` raise
`AttributeError` (modelled as `error`); iterating a non-iterable
`"children"` value raises `TypeError`.  Where a defaulted `.get` chain
can only produce a fixed harmless value (absent `"data"` → `{}`, string
or dict `"children"` whose elements are skipped as non-dicts), the
embedding writes that branch's evaluated result directly. -/
def walk (node : JVal) : Except Unit (List RawComment) :=
  match node with
  | .obj fs =>
    match jLookup fs kKind with
    | some (.str k) =>
      if k = strT1 then
        match hd : jLookup fs kData with
        | some (.obj ds) =>
          (match pyOrSlice (dGet ds kBody (.str [])) 1000 with
           | .error e => .error e
           | .ok body =>
             match (match hr : jLookup ds kReplies with
               | some (.obj rs) =>
                 match hrd : jLookup rs kData with
                 | some (.obj rds) =>
                   match hrc : jLookup rds kChildren with
                   | some (.arr es) => walkList es
                   | some (.str _) => Except.ok []
                   | some (.obj _) => Except.ok []
                   | some _ => Except.error ()
                   | none => Except.ok []
                 | some _ => Except.error ()
                 | none => Except.ok []
               | some _ => Except.ok []
               | none => Except.ok []) with
             | .error e => .error e
             | .ok rest =>
               .ok ({ author := dGet ds kAuthor (.str [])
                      body := body
                      score := dGet ds kScore (.num 0)
                      id := dGet ds kId (.str []) } :: rest))
        | some _ => .error ()
        | none =>
            -- cd = {}: every field defaults, there are no replies
            .ok [{ author := .str [], body := .str [], score := .num 0, id := .str [] }]
      else if k = strListing then
        match hd : jLookup fs kData with
        | some (.obj ds) =>
          match hc : jLookup ds kChildren with
          | some (.arr es) => walkList es
          | some (.str _) => .ok []
          | some (.obj _) => .ok []
          | some _ => .error ()
          | none => .ok []
        | some _ => .error ()
        | none => .ok []
      else .ok []
    | some _ => .ok []
    | none => .ok []
  | _ => .ok []
termination_by sizeOf node
decreasing_by
  · have h1 := jLookup_sizeOf hd
    have h2 := jLookup_sizeOf hr
    have h3 := jLookup_sizeOf hrd
    have h4 := jLookup_sizeOf hrc
    simp at h1 h2 h3 h4 ⊢
    omega
  · have h1 := jLookup_sizeOf hd
    have h2 := jLookup_sizeOf hc
    simp at h1 h2 ⊢
    omega

/-- Depth-first traversal of a list of sibling nodes, concatenating the
collected comments in order. -/
def walkList (es : List JVal) : Except Unit (List RawComment) :=
  match es with
  | [] => .ok []
  | e :: rest =>
    match walk e with
    | .error err => .error err
    | .ok a =>
      match walkList rest with
      | .error err => .error err
      | .ok b => .ok (a ++ b)
termination_by sizeOf es
decreasing_by
  all_goals simp
  all_goals omega

end

/-- api.py `fetch_comments_for_post` after the fetch: `None`, non-list,
or short responses yield `[]`; otherwise the walk runs on `data[1]`. -/
def fetch_comments_for_post (data : Option JVal) : Except Unit (List RawComment) :=
  match data with
  | none => .ok []
  | some d =>
    if jFalsy d then .ok []
    else match d with
      | .arr es =>
        if es.length < 2 then .ok []
        else match es with
          | _ :: second :: _ => walk second
          | _ => .ok []
      | _ => .ok []

/-- File-system steps performed by state.py `save_state`:
`open(state_file, "w")` truncates the file at once, then `json.dump`
appends the serialized state incrementally (modelled character by
character).  `os.makedirs` touches only the parent directory and is not
modelled. -/
inductive FsOp where
  | truncate
  | writeChar (c : Char)
  deriving DecidableEq, Repr

/-- Effect of one file-system step on the file's content. -/
def applyOp (content : Str) : FsOp → Str
  | .truncate => []
  | .writeChar c => content ++ [c]

/-- Content of the state file after a sequence of steps. -/
def applyOps (content : Str) (ops : List FsOp) : Str :=
  ops.foldl applyOp content

/-- The step trace of `save_state` writing serialization `s`:
truncate-in-place, then write the new content.  There is no
temporary-file-and-rename indirection in the source. -/
def save_state_trace (s : Str) : List FsOp :=
  FsOp.truncate :: s.map FsOp.writeChar

/-- The specification's atomicity property ("either the full new state is
visible or the prior file is"): after any prefix of the save's steps, a
reader of the file sees the old content or the final content. -/
def AtomicSave (old : Str) (ops : List FsOp) : Prop :=
  ∀ k ≤ ops.length,
    applyOps old (ops.take k) = old ∨ applyOps old (ops.take k) = applyOps old ops

instance (old : Str) (ops : List FsOp) : Decidable (AtomicSave old ops) := by
  unfold AtomicSave; infer_instance

theorem isSub_of_nil_needle (t : Str) : isSub [] t = true := by
  simp [isSub]

theorem any_isSub_nil_imp (brands : List Str) (t : Str)
    (h : brands.any (fun b => isSub b []) = true) :
    brands.any (fun b => isSub b t) = true := by
  rw [List.any_eq_true] at h ⊢
  obtain ⟨b, hb, hsub⟩ := h
  refine ⟨b, hb, ?_⟩
  have hb0 : b = [] := by simpa [isSub] using hsub
  subst hb0
  simp [isSub]

/-- C6: is_relevant returns true iff the case-folded source channel is in
the configured high-value channel set, or the case-folded title+body
contains some configured relevance keyword as a substring.  In
particular a high-value-channel post is relevant with no keyword match,
and a keyword-matching post is relevant outside the high-value channels. -/
theorem is_relevant_iff (p : Post) (hv kws : List Str) :
    is_relevant p hv kws = true ↔
      pyLower p.subreddit ∈ hv ∨ ∃ kw ∈ kws, kw <:+: pyLower (textOf p) := by
  unfold is_relevant
  by_cases h : pyLower p.subreddit ∈ hv
  · simp [h]
  · simp [h, isSub, List.any_eq_true]

/-- C4 counterexample: with brand alias "a b", a post whose title+body is
"x y", no competitors, and two replies with bodies "a" and "b",
classify_priority returns URGENT although the alias occurs neither in the
title+body nor in any single reply body — the claim's rules would give
MEDIUM.  The alias matches across the space-joined reply text. -/
theorem classify_priority_claim_fails_on_spanning_alias :
    classify_priority
        { id := [], title := ['x'], selftext := ['y'], subreddit := [],
          score := 0, num_comments := 0 }
        [['a',' ','b']] [] []
        (some [{ author := [], body := ['a'], score := 0, id := [] },
               { author := [], body := ['b'], score := 0, id := [] }]) = .URGENT ∧
    ¬ ['a',' ','b'] <:+:
        pyLower (textOf { id := [], title := ['x'], selftext := ['y'], subreddit := [],
                          score := 0, num_comments := 0 }) ∧
    (∀ c ∈ [({ author := [], body := ['a'], score := 0, id := [] } : Comment),
            { author := [], body := ['b'], score := 0, id := [] }],
        ¬ ['a',' ','b'] <:+: pyLower c.body) := by
  decide

/-- The amended classification policy: URGENT if the case-folded
title+body contains a brand alias, or — when replies are supplied — the
space-joined concatenation of the case-folded reply bodies contains a
brand alias (an alias containing a space may match across adjacent
bodies); else HIGH on a competitor mention; else MEDIUM. -/
def classify_priority_amended (post : Post) (brand_aliases competitor_names : List Str)
    (comments : Option (List Comment)) : Priority :=
  let text := pyLower (textOf post)
  if brand_aliases.any (fun b => isSub b text) ||
     (match comments with
      | some cs =>
          brand_aliases.any (fun b => isSub b (joinSp (cs.map (fun c => pyLower c.body))))
      | none => false) then .URGENT
  else if competitor_names.any (fun c => isSub c text) then .HIGH
  else .MEDIUM

/-- C4 amended: classify_priority implements exactly the amended policy
(for an empty supplied reply list the joined reply text is the empty
string, which only an empty alias matches — and an empty alias already
matches the title+body, so Python's truthiness skip of empty reply lists
is unobservable). -/
theorem classify_priority_eq_amended (post : Post)
    (brand_aliases competitor_names geographic_terms : List Str)
    (comments : Option (List Comment)) :
    classify_priority post brand_aliases competitor_names geographic_terms comments =
      classify_priority_amended post brand_aliases competitor_names comments := by
  unfold classify_priority classify_priority_amended
  match comments with
  | none => simp
  | some [] =>
    by_cases hA : brand_aliases.any
        (fun b => isSub b (pyLower (textOf post))) = true
    · simp [hA]
    · have hJ : brand_aliases.any
          (fun b => isSub b (joinSp (([] : List Comment).map (fun c => pyLower c.body))))
          = false := by
        rcases hb : brand_aliases.any
            (fun b => isSub b (joinSp (([] : List Comment).map (fun c => pyLower c.body)))) with _ | _
        · exact hb
        · exact absurd (any_isSub_nil_imp _ _ (by simpa [joinSp] using hb)) hA
      simp only [List.map_nil] at hJ
      simp [hA, hJ]
  | some (c :: cs) =>
    by_cases hA : brand_aliases.any
        (fun b => isSub b (pyLower (textOf post))) = true
    · simp [hA]
    · simp [hA]

theorem applyOps_writeAll (s acc : Str) :
    applyOps acc (s.map FsOp.writeChar) = acc ++ s := by
  induction s generalizing acc with
  | nil => simp [applyOps]
  | cons c rest ih =>
    simp only [List.map_cons]
    show applyOps (applyOp acc (FsOp.writeChar c)) (rest.map FsOp.writeChar) = acc ++ c :: rest
    rw [ih]
    simp [applyOp]

/-- C8 counterexample: with prior file content "ab" and new serialized
state "cd", the content observable after the truncation step of
save_state is the empty string — neither the old state nor the new
state, so the save is not atomic from a reader's perspective. -/
theorem save_state_not_atomic :
    ¬ AtomicSave ['a','b'] (save_state_trace ['c','d']) := by decide

/-- C8 amended: save_state rewrites the state file in place.  Before the
save begins the previous run's state is intact, a completed save leaves
exactly the new serialized state, but an interruption strictly inside
the save leaves a truncated file holding a (possibly empty) proper
prefix of the new content — a partial write, not the previous state. -/
theorem save_state_observable_states (old s : Str) :
    applyOps old ((save_state_trace s).take 0) = old ∧
    applyOps old (save_state_trace s) = s ∧
    ∀ k : Nat, applyOps old ((save_state_trace s).take (k + 1)) = s.take k := by
  refine ⟨rfl, ?_, ?_⟩
  · show applyOps (applyOp old FsOp.truncate) (s.map FsOp.writeChar) = s
    rw [show applyOp old FsOp.truncate = [] from rfl, applyOps_writeAll]
    rfl
  · intro k
    show applyOps (applyOp old FsOp.truncate) ((s.map FsOp.writeChar).take k) = s.take k
    rw [show applyOp old FsOp.truncate = [] from rfl, ← List.map_take, applyOps_writeAll]
    rfl

/-- Settings for the C2 failing input: seen-id cap 1, everything else
immaterial. -/
def capOneSettings : Settings :=
  { brand_aliases := [], competitor_names := [], high_value_subs := [],
    relevance_keywords := [], geographic := [], max_comments_to_fetch := 15,
    min_comments_for_fetch := 5, max_seen_ids := 1 }

/-- The single post fetched in the C2 failing input. -/
def postNewB : Post :=
  { id := ['b'], title := [], selftext := [], subreddit := [],
    score := 0, num_comments := 0 }

/-- C2: with prior seen ids ["a"], one fetched post "b" and cap 1, under
the (legal) set enumeration ["b", "a"] the run persists ["a"]: the id
inserted this run is discarded while the id inserted in an earlier run is
retained.  run_monitor rebuilds the seen ids via `list(set(...))`, whose
order is unspecified, so trimming cannot honour insertion order. -/
theorem trim_discards_newest_under_set_order :
    ValidEnum [['b'],['a']] [['a']] (fetchedIdsOf [[postNewB]]) ∧
    (runMonitor capOneSettings [[postNewB]] [['a']] (fun _ => [])
        [['b'],['a']]).persisted_seen = [['a']] := by decide

/-- C5: the posts whose replies are fetched are exactly the first
max_comments_to_fetch entries, in the priority-then-engagement sort
order, of the relevant new posts whose num_comments strictly exceeds
min_comments_for_fetch; no other post gets a reply fetch, and the fetch
list never exceeds the budget. -/
theorem deep_fetch_exactly_top_eligible (cfg : Settings)
    (searchResults : List (List Post)) (loadedSeen : List Str)
    (commentsFor : Str → List Comment) (setOrder : List Str) :
    (runMonitor cfg searchResults loadedSeen commentsFor setOrder).fetched =
      (((sortedOf cfg searchResults loadedSeen).filter
          (fun ap => decide (ap.1.num_comments > cfg.min_comments_for_fetch))).take
        cfg.max_comments_to_fetch).map (fun ap => ap.1) ∧
    (runMonitor cfg searchResults loadedSeen commentsFor setOrder).fetched.length ≤
      cfg.max_comments_to_fetch := by
  constructor
  · rfl
  · show ((deepFetchedOf cfg searchResults loadedSeen).map (fun ap => ap.1)).length ≤ _
    rw [List.length_map]
    unfold deepFetchedOf
    rw [List.length_take]
    exact min_le_left _ _

theorem mem_fetchedIdsOf {p : Post} {searchResults : List (List Post)}
    (hp : p ∈ allPostsOf searchResults) : p.id ∈ fetchedIdsOf searchResults := by
  exact List.mem_map.mpr ⟨p, hp, rfl⟩

theorem trim_no_op {ord : List Str} {m : Nat} (h : ord.length ≤ m) :
    trim_seen_ids ord m = ord := by
  unfold trim_seen_ids
  rw [if_neg (by omega)]

theorem newRelevantOf_nil (cfg : Settings) (searchResults : List (List Post))
    (loadedSeen : List Str)
    (h : ∀ p ∈ allPostsOf searchResults, p.id ∈ loadedSeen) :
    newRelevantOf cfg searchResults loadedSeen = [] := by
  unfold newRelevantOf
  have h₁ : (allPostsOf searchResults).filter
      (fun p => decide (p.id ∉ loadedSeen)) = [] := by
    rw [List.filter_eq_nil_iff]
    intro p hp
    simp [h p hp]
  rw [h₁]
  rfl

/-- C1 amended: if the first run's combined seen-id set fits under
max_seen_ids (so trimming removes nothing), then a second run over the
same per-query search results, starting from the state the first run
persisted, reports zero new relevant posts — whatever enumeration order
the second run's set conversion uses and whatever the comment oracles
return. -/
theorem run_twice_zero_new_when_no_trim (cfg : Settings)
    (searchResults : List (List Post)) (loadedSeen : List Str)
    (cf1 cf2 : Str → List Comment) (ord1 ord2 : List Str)
    (h1 : ValidEnum ord1 loadedSeen (fetchedIdsOf searchResults))
    (hNoTrim : ord1.length ≤ cfg.max_seen_ids) :
    (runMonitor cfg searchResults
        (runMonitor cfg searchResults loadedSeen cf1 ord1).persisted_seen
        cf2 ord2).new_post_count = 0 := by
  have hper : (runMonitor cfg searchResults loadedSeen cf1 ord1).persisted_seen
      = ord1 := trim_no_op hNoTrim
  rw [hper]
  have hnil : newRelevantOf cfg searchResults ord1 = [] :=
    newRelevantOf_nil cfg searchResults ord1
      (fun p hp => h1.2.2.2 p.id (mem_fetchedIdsOf hp))
  show ((stableSort keyLe (classifiedOf cfg searchResults ord1)).map _).length = 0
  unfold classifiedOf
  rw [hnil]
  rfl

/-- Settings for the C1 counterexample: subreddit "s" is high-value so
both posts are relevant; the seen-id cap is 1, so the first run's
trimming must discard one of the two fetched ids. -/
def capOneRelevantSettings : Settings :=
  { brand_aliases := [], competitor_names := [], high_value_subs := [['s']],
    relevance_keywords := [], geographic := [], max_comments_to_fetch := 15,
    min_comments_for_fetch := 5, max_seen_ids := 1 }

/-- First post of the C1 counterexample. -/
def postRelA : Post :=
  { id := ['a'], title := [], selftext := [], subreddit := ['s'],
    score := 0, num_comments := 0 }

/-- Second post of the C1 counterexample. -/
def postRelB : Post :=
  { id := ['b'], title := [], selftext := [], subreddit := ['s'],
    score := 0, num_comments := 0 }

/-- C1 counterexample: two relevant posts, empty prior state, seen-id cap
1.  The first run persists only one id (trimming drops the other), so an
immediately repeated run over the identical search results reports one
new relevant post, not zero — under both possible enumeration orders of
the first run's two-element seen set. -/
theorem run_twice_not_always_zero :
    ValidEnum [['a'],['b']] [] (fetchedIdsOf [[postRelA, postRelB]]) ∧
    ValidEnum [['b'],['a']] [] (fetchedIdsOf [[postRelA, postRelB]]) ∧
    (runMonitor capOneRelevantSettings [[postRelA, postRelB]]
        (runMonitor capOneRelevantSettings [[postRelA, postRelB]] [] (fun _ => [])
          [['a'],['b']]).persisted_seen
        (fun _ => []) [['a'],['b']]).new_post_count = 1 ∧
    (runMonitor capOneRelevantSettings [[postRelA, postRelB]]
        (runMonitor capOneRelevantSettings [[postRelA, postRelB]] [] (fun _ => [])
          [['b'],['a']]).persisted_seen
        (fun _ => []) [['b'],['a']]).new_post_count = 1 := by
  decide

/-- C1 witness: a concrete one-post instance satisfying the hypotheses
of the amended idempotency theorem. -/
theorem run_twice_zero_new_when_no_trim_witness :
    ValidEnum [['a']] [] (fetchedIdsOf [[postRelA]]) ∧
    ([['a']] : List Str).length ≤ capOneRelevantSettings.max_seen_ids ∧
    (runMonitor capOneRelevantSettings [[postRelA]]
        (runMonitor capOneRelevantSettings [[postRelA]] [] (fun _ => [])
          [['a']]).persisted_seen
        (fun _ => []) [['a']]).new_post_count = 0 :=
  ⟨by decide, by decide,
    run_twice_zero_new_when_no_trim capOneRelevantSettings [[postRelA]] []
      (fun _ => []) (fun _ => []) [['a']] [['a']] (by decide) (by decide)⟩

theorem trim_split (ord : List Str) (m : Nat) :
    ord.take (ord.length - (trim_seen_ids ord m).length) ++ trim_seen_ids ord m
      = ord := by
  unfold trim_seen_ids
  by_cases h1 : ord.length > m
  · rw [if_pos h1]
    by_cases h2 : m = 0
    · rw [if_pos h2]
      simp
    · rw [if_neg h2]
      rw [List.length_drop]
      have he : ord.length - (ord.length - (ord.length - m)) = ord.length - m := by
        omega
      rw [he, List.take_append_drop]
  · rw [if_neg h1]
    simp

/-- C3: every post returned by any search query of the run (after
within-run dedup, relevant or not) has its id either in the persisted
seen set or among the ids removed by trimming. -/
theorem fetched_ids_persisted_or_trimmed (cfg : Settings)
    (searchResults : List (List Post)) (loadedSeen : List Str)
    (commentsFor : Str → List Comment) (setOrder : List Str)
    (h : ValidEnum setOrder loadedSeen (fetchedIdsOf searchResults)) :
    ∀ p ∈ allPostsOf searchResults,
      p.id ∈ (runMonitor cfg searchResults loadedSeen commentsFor setOrder).persisted_seen ∨
      p.id ∈ (runMonitor cfg searchResults loadedSeen commentsFor setOrder).trimmed := by
  intro p hp
  have hid : p.id ∈ setOrder := h.2.2.2 p.id (mem_fetchedIdsOf hp)
  have hsplit := trim_split setOrder cfg.max_seen_ids
  have hmem : p.id ∈
      setOrder.take (setOrder.length - (trim_seen_ids setOrder cfg.max_seen_ids).length) ++
        trim_seen_ids setOrder cfg.max_seen_ids := by
    rw [hsplit]; exact hid
  rcases List.mem_append.mp hmem with hl | hr
  · right; exact hl
  · left; exact hr

/-- C3 witness: a concrete run where the fetched post's id survives in
the persisted seen set. -/
theorem fetched_ids_persisted_or_trimmed_witness :
    ValidEnum [['a']] [] (fetchedIdsOf [[postRelA]]) ∧
    (∀ p ∈ allPostsOf [[postRelA]],
      p.id ∈ (runMonitor capOneRelevantSettings [[postRelA]] [] (fun _ => [])
          [['a']]).persisted_seen ∨
      p.id ∈ (runMonitor capOneRelevantSettings [[postRelA]] [] (fun _ => [])
          [['a']]).trimmed) :=
  ⟨by decide,
    fetched_ids_persisted_or_trimmed capOneRelevantSettings [[postRelA]] []
      (fun _ => []) [['a']] (by decide)⟩

theorem trim_sublist (ord : List Str) (m : Nat) :
    (trim_seen_ids ord m).Sublist ord := by
  unfold trim_seen_ids
  by_cases h1 : ord.length > m
  · rw [if_pos h1]
    by_cases h2 : m = 0
    · rw [if_pos h2]
    · rw [if_neg h2]
      exact List.drop_sublist _ _
  · rw [if_neg h1]

/-- C10: the persisted seen_post_ids list holds no duplicate identifier —
for any loaded state, including one that itself contains duplicates —
because the run collapses loaded and fetched identifiers into a set
(enumerated without repetition) before trimming and persisting. -/
theorem persisted_seen_nodup (cfg : Settings)
    (searchResults : List (List Post)) (loadedSeen : List Str)
    (commentsFor : Str → List Comment) (setOrder : List Str)
    (h : ValidEnum setOrder loadedSeen (fetchedIdsOf searchResults)) :
    (runMonitor cfg searchResults loadedSeen commentsFor setOrder).persisted_seen.Nodup := by
  show (trim_seen_ids setOrder cfg.max_seen_ids).Nodup
  exact List.Nodup.sublist (trim_sublist setOrder cfg.max_seen_ids) h.1

/-- C10 witness: a loaded state with a duplicated id still persists a
duplicate-free list. -/
theorem persisted_seen_nodup_witness :
    ValidEnum [['a'],['b']] [['a'],['a']] (fetchedIdsOf [[postRelB]]) ∧
    (runMonitor capOneRelevantSettings [[postRelB]] [['a'],['a']] (fun _ => [])
        [['a'],['b']]).persisted_seen.Nodup :=
  ⟨by decide,
    persisted_seen_nodup capOneRelevantSettings [[postRelB]] [['a'],['a']]
      (fun _ => []) [['a'],['b']] (by decide)⟩

/-- The value of Python `(v or "")[:n]` when it does not raise. -/
def orSliceVal (v : JVal) (n : Nat) : JVal :=
  if jFalsy v then .str []
  else match v with
    | .str s => .str (s.take n)
    | .arr es => .arr (es.take n)
    | _ => .null

/-- Whether `(v or "")[:n]` evaluates without raising: the value is
falsy, a string, or a list. -/
def orSliceOkB (v : JVal) : Bool :=
  match v with
  | .str _ => true
  | .arr _ => true
  | v => jFalsy v

/-- A listing child on which `extract_posts` cannot raise: a dict whose
`"data"` value (defaulting to `{}`) is a dict whose `selftext` is
or-sliceable. -/
def GoodChildB (c : JVal) : Bool :=
  match c with
  | .obj cfs =>
    match dGet cfs kData (.obj []) with
    | .obj ds => orSliceOkB (dGet ds kSelftext (.str []))
    | _ => false
  | _ => false

/-- The post extracted from a good child — the independently stated
expected value for C7 (junk for bad children, which C7's hypothesis
excludes). -/
def childPost (c : JVal) : RawPost :=
  match c with
  | .obj cfs =>
    match dGet cfs kData (.obj []) with
    | .obj ds =>
        { title := dGet ds kTitle (.str [])
          subreddit := dGet ds kSubreddit (.str [])
          author := dGet ds kAuthor (.str [])
          score := dGet ds kScore (.num 0)
          num_comments := dGet ds kNumComments (.num 0)
          created_utc := dGet ds kCreatedUtc (.num 0)
          selftext := orSliceVal (dGet ds kSelftext (.str [])) 1000
          url := .str (pyStrOf (dGet ds kPermalink (.str [])))
          permalink := dGet ds kPermalink (.str [])
          id := dGet ds kId (.str []) }
    | _ => { title := .null, subreddit := .null, author := .null, score := .null,
             num_comments := .null, created_utc := .null, selftext := .null,
             url := .null, permalink := .null, id := .null }
  | _ => { title := .null, subreddit := .null, author := .null, score := .null,
           num_comments := .null, created_utc := .null, selftext := .null,
           url := .null, permalink := .null, id := .null }

/-- A search response on which `extract_posts` completes without raising:
a dict with a `"data"` member that is itself a dict, whose `"children"`
member (if present) is a list of good children. -/
def GoodListingB (d : JVal) : Bool :=
  match d with
  | .obj fs =>
    match jLookup fs kData with
    | some (.obj ds) =>
      (match jLookup ds kChildren with
       | some (.arr es) => es.all GoodChildB
       | none => true
       | some _ => false)
    | _ => false
  | _ => false

/-- The posts a good search response carries, stated independently of
`extract_posts`. -/
def listingPosts (d : JVal) : List RawPost :=
  match d with
  | .obj fs =>
    match jLookup fs kData with
    | some (.obj ds) =>
      (match jLookup ds kChildren with
       | some (.arr es) => es.map childPost
       | _ => [])
    | _ => []
  | _ => []

/-- A per-query outcome the orchestrator absorbs cleanly: a failed
request (`none` — timeout, non-2xx status, or a payload `json.loads`
rejects, all caught inside `fetch_reddit`) or a good listing. -/
def goodOutcome (o : Option JVal) : Bool :=
  o.elim true GoodListingB

theorem pyOrSlice_good {v : JVal} {n : Nat} (h : orSliceOkB v = true) :
    pyOrSlice v n = .ok (orSliceVal v n) := by
  unfold pyOrSlice orSliceVal
  by_cases hf : jFalsy v = true
  · rw [if_pos hf, if_pos hf]
  · rw [if_neg hf, if_neg hf]
    cases v <;> simp_all [orSliceOkB, jFalsy]

theorem extractChild_good {c : JVal} (h : GoodChildB c = true) :
    extractChild c = .ok (childPost c) := by
  cases c with
  | obj cfs =>
    cases hd : dGet cfs kData (.obj []) with
    | obj ds =>
      have hs : orSliceOkB (dGet ds kSelftext (.str [])) = true := by
        simp only [GoodChildB, hd] at h
        exact h
      simp only [extractChild, childPost, hd, pyOrSlice_good hs]
    | null => simp [GoodChildB, hd] at h
    | bool b => simp [GoodChildB, hd] at h
    | num n => simp [GoodChildB, hd] at h
    | str s => simp [GoodChildB, hd] at h
    | arr es => simp [GoodChildB, hd] at h
  | null => simp [GoodChildB] at h
  | bool b => simp [GoodChildB] at h
  | num n => simp [GoodChildB] at h
  | str s => simp [GoodChildB] at h
  | arr es => simp [GoodChildB] at h

theorem mapM_loop_extractChild {es : List JVal} (h : ∀ c ∈ es, GoodChildB c = true)
    (acc : List RawPost) :
    List.mapM.loop extractChild es acc = .ok (acc.reverse ++ es.map childPost) := by
  induction es generalizing acc with
  | nil =>
    rw [List.mapM.loop]
    simp only [List.map_nil, List.append_nil]
    rfl
  | cons c rest ih =>
    rw [List.mapM.loop, extractChild_good (h c (by simp))]
    show List.mapM.loop extractChild rest (childPost c :: acc) = _
    rw [ih (fun x hx => h x (by simp [hx]))]
    simp

theorem mapM_extractChild {es : List JVal} (h : ∀ c ∈ es, GoodChildB c = true) :
    es.mapM extractChild = .ok (es.map childPost) := by
  show List.mapM.loop extractChild es [] = _
  rw [mapM_loop_extractChild h []]
  rfl

theorem jLookup_any {fs : List (Str × JVal)} {k : Str} :
    (fs.any (fun p => decide (p.1 = k))) = (jLookup fs k).isSome := by
  induction fs with
  | nil => rfl
  | cons p rest ih =>
    obtain ⟨k', v⟩ := p
    by_cases h : k' = k <;> simp [jLookup, h, ih]

theorem jLookup_nonnil {fs : List (Str × JVal)} {k : Str} {v : JVal}
    (h : jLookup fs k = some v) : fs.isEmpty = false := by
  cases fs with
  | nil => simp [jLookup] at h
  | cons p rest => rfl

theorem extract_posts_good {d : JVal} (h : GoodListingB d = true) :
    extract_posts (some d) = .ok (listingPosts d) := by
  cases d with
  | obj fs =>
    cases hl : jLookup fs kData with
    | none => simp [GoodListingB, hl] at h
    | some v =>
      cases v with
      | obj ds =>
        have hfal : jFalsy (JVal.obj fs) = false := by
          simp [jFalsy, jLookup_nonnil hl]
        have hcont : fs.any (fun p => decide (p.1 = kData)) = true := by
          rw [jLookup_any, hl]
          rfl
        cases hc : jLookup ds kChildren with
        | none =>
          simp only [extract_posts, hfal, Bool.false_eq_true, if_false,
            jContains, hcont, Bool.not_true, jIndexStr, hl, listingPosts, hc,
            dGet, Option.getD_none, pyIter]
          rfl
        | some cv =>
          cases cv with
          | arr es =>
            have hall : ∀ c ∈ es, GoodChildB c = true := by
              have h' := h
              simp [GoodListingB, hl, hc, List.all_eq_true] at h'
              exact h'
            simp [extract_posts, hfal, jContains, hcont, jIndexStr, hl,
              listingPosts, hc, dGet, pyIter, mapM_loop_extractChild hall]
          | null => simp [GoodListingB, hl, hc] at h
          | bool b => simp [GoodListingB, hl, hc] at h
          | num n => simp [GoodListingB, hl, hc] at h
          | str s => simp [GoodListingB, hl, hc] at h
          | obj o => simp [GoodListingB, hl, hc] at h
      | null => simp [GoodListingB, hl] at h
      | bool b => simp [GoodListingB, hl] at h
      | num n => simp [GoodListingB, hl] at h
      | str s => simp [GoodListingB, hl] at h
      | arr es => simp [GoodListingB, hl] at h
  | null => simp [GoodListingB] at h
  | bool b => simp [GoodListingB] at h
  | num n => simp [GoodListingB] at h
  | str s => simp [GoodListingB] at h
  | arr es => simp [GoodListingB] at h

/-- C7: per-request failure isolation.  If every per-query outcome is
either a failed request (absorbed inside fetch_reddit as `none`:
timeout, non-2xx response, or a payload json.loads rejects) or a
well-formed listing, the search fan-out completes without any exception
reaching the orchestrator, each failed query contributes the empty list,
and the collected posts are exactly the successful queries' posts,
concatenated in query order. -/
theorem search_failures_isolated (outcomes : List (Option JVal))
    (h : ∀ o ∈ outcomes, goodOutcome o = true) :
    searchLoop outcomes =
      .ok (joinAll (outcomes.map (fun o => o.elim [] listingPosts))) := by
  induction outcomes with
  | nil => rfl
  | cons o rest ih =>
    have hrest := ih (fun x hx => h x (by simp [hx]))
    cases o with
    | none =>
      show (match extract_posts none with
            | .error e => Except.error e
            | .ok ps =>
              match searchLoop rest with
              | .error e => Except.error e
              | .ok more => Except.ok (ps ++ more)) = _
      rw [hrest]
      rfl
    | some d =>
      have hg : GoodListingB d = true := by
        have := h (some d) (by simp)
        simpa [goodOutcome] using this
      show (match extract_posts (some d) with
            | .error e => Except.error e
            | .ok ps =>
              match searchLoop rest with
              | .error e => Except.error e
              | .ok more => Except.ok (ps ++ more)) = _
      rw [extract_posts_good hg, hrest]
      rfl

/-- A concrete well-formed one-post search response used by the C7
witness. -/
def goodListingOne : JVal :=
  .obj [(kData, .obj [(kChildren,
    .arr [.obj [(kData, .obj [(kTitle, .str ['t']), (kId, .str ['x'])])]])])]

/-- C7 witness: one failed query followed by one successful query — the
run result is exactly the successful query's single post. -/
theorem search_failures_isolated_witness :
    (∀ o ∈ [none, some goodListingOne], goodOutcome o = true) ∧
    searchLoop [none, some goodListingOne] =
      .ok (joinAll (([none, some goodListingOne]).map
        (fun o => o.elim [] listingPosts))) :=
  ⟨by decide, search_failures_isolated [none, some goodListingOne] (by decide)⟩

/-- C9: the reply-tree walk is not exception-free on arbitrary JSON.  On
the response `[null, {"kind": "t1", "data": 5}]` — valid JSON with
malformed nesting — `walk_comments` evaluates `cd.get("author", "")`
with `cd = 5` and Python raises `AttributeError`; the embedding returns
`error`.  The claim says every malformed node shape is skipped as a
no-op and the walk never raises. -/
theorem walk_comments_raises_on_malformed_data :
    fetch_comments_for_post
      (some (.arr [.null, .obj [(kKind, .str strT1), (kData, .num 5)]]))
      = .error () := by
  show walk (.obj [(kKind, .str strT1), (kData, .num 5)]) = .error ()
  rw [walk]
  rfl
